import Mathlib

/-!
Verification development for the SGU monthly attendance tracker
(single source file `app_database.py`).  The definitions below are a
shallow embedding of the business logic of that file: the editable-grid
merge (source lines 282-293), the lock gate (line 294), the batch-save
handler (lines 309-323), the enrollment replacement
(`update_course_enrollment`, lines 99-105), the roster filter
(line 275), the administrator unlock (lines 554-567) and the defaulter
aggregation (lines 529-531).  Tables of the backing store are modelled
as lists of typed rows; pandas data frames become lists of records.

Within one (course, month, department, class, section) group the
backing store enforces composite-key uniqueness of `student_id`
(spec section 6), so the pandas left-merge on `StudentID` is modelled
as a first-match lookup (`List.find?`); theorems that depend on this
carry an explicit pairwise-distinctness hypothesis on the persisted
rows.  The source field `section` is rendered as `sec` because
`section` is a Lean keyword.
-/

namespace SGUAttendance

/-- Status string constants, source lines 25-26. -/
def STATUS_LOCKED : String := "LOCKED"

/-- Status string constant for editable rows, source line 26. -/
def STATUS_DRAFT : String := "DRAFT"

/-- One roster student as used by the entry grid (columns selected at
source line 282: `student_id`, `PRN`, `name`). -/
structure Student where
  student_id : String
  prn : String
  name : String
deriving DecidableEq

/-- One persisted attendance row (table `attendance`, spec section 6 and
the upsert record built at source line 315). -/
structure AttRow where
  student_id : String
  course_code : String
  department_id : Int
  class_name : String
  sec : String
  month_yyyy_mm : String
  lectures_held : Int
  attended : Int
  status : String
  remarks : String
  updated_by_faculty_id : String
  updated_at : String
deriving DecidableEq

/-- One row of the editable grid `entry_df` (source lines 282-293). -/
structure GridRow where
  studentId : String
  prn : String
  name : String
  lecturesHeld : Int
  attended : Int
  status : String
  remarks : String
  percentage : ℚ
deriving DecidableEq

/-- Roster filter of source line 275: with a non-empty enrollment
override only the listed students are kept, otherwise the full roster. -/
def resolveEffectiveRoster (roster : List Student) (enrolled_ids : List String) :
    List Student :=
  if enrolled_ids.isEmpty then roster
  else roster.filter (fun s => enrolled_ids.contains s.student_id)

/-- Default grid row of source lines 282-284: the session value for
lectures held, attended 0, status DRAFT, empty remarks. -/
def defaultRow (lectures_held : Int) (s : Student) : GridRow :=
  { studentId := s.student_id, prn := s.prn, name := s.name,
    lecturesHeld := lectures_held, attended := 0,
    status := STATUS_DRAFT, remarks := "", percentage := 0 }

/-- Overlay of source lines 285-291: the left merge on `StudentID`
followed by `fillna` replaces the defaults of a row by the persisted
values whenever a persisted row with the same student id exists. -/
def overlayRow (persisted : List AttRow) (r : GridRow) : GridRow :=
  match persisted.find? (fun a => a.student_id == r.studentId) with
  | some a => { r with attended := a.attended, lecturesHeld := a.lectures_held,
                       status := a.status, remarks := a.remarks }
  | none => r

/-- Percentage derivation of source line 293. -/
def setPercentage (r : GridRow) : GridRow :=
  { r with percentage :=
      if r.lecturesHeld > 0 then (r.attended : ℚ) / (r.lecturesHeld : ℚ) * 100 else 0 }

/-- The full grid-merge of source lines 282-293: roster defaults, then
the persisted overlay, then the derived percentage column. -/
def mergeGrid (roster : List Student) (lectures_held : Int) (persisted : List AttRow) :
    List GridRow :=
  ((roster.map (defaultRow lectures_held)).map (overlayRow persisted)).map setPercentage

/-- Lock gate of source line 294: the grid is read-only as soon as the
value LOCKED appears among the statuses of the merged grid. -/
def is_locked (grid : List GridRow) : Bool :=
  grid.any (fun r => r.status == STATUS_LOCKED)

/-- Key of one attendance group, the match criteria of
`get_attendance_records` (source line 142). -/
structure GroupKey where
  course_code : String
  department_id : Int
  class_name : String
  sec : String
  month_yyyy_mm : String
deriving DecidableEq

/-- Row filter corresponding to the five `eq` clauses of
`get_attendance_records` (source line 142) and to the `match` criteria
of the unlock update (source line 562). -/
def matchesGroup (k : GroupKey) (a : AttRow) : Bool :=
  decide (a.course_code = k.course_code ∧ a.month_yyyy_mm = k.month_yyyy_mm ∧
    a.department_id = k.department_id ∧ a.class_name = k.class_name ∧ a.sec = k.sec)

/-- Read of the persisted rows of one group, source lines 139-144. -/
def get_attendance_records (k : GroupKey) (store : List AttRow) : List AttRow :=
  store.filter (matchesGroup k)

/-- Context of one batch save: the group key plus the stamping identity
and time of the upsert record of source line 315. -/
structure SaveCtx extends GroupKey where
  facultyId : String
  nowIso : String
deriving DecidableEq

/-- One entry of the validation report of source line 311, carrying the
student name and the two offending values. -/
structure ValidationError where
  name : String
  attended : Int
  lecturesHeld : Int
deriving DecidableEq

/-- Validation of source line 311: all rows with attended exceeding
lectures held are collected, not only the first. -/
def collectErrors (grid : List GridRow) : List ValidationError :=
  (grid.filter (fun r => decide (r.attended > r.lecturesHeld))).map
    (fun r => { name := r.name, attended := r.attended, lecturesHeld := r.lecturesHeld })

/-- Upsert record construction of source line 315.  The grid percentage
is not among the persisted fields. -/
def buildUpsert (ctx : SaveCtx) (status_to_set : String) (r : GridRow) : AttRow :=
  { student_id := r.studentId, course_code := ctx.course_code,
    department_id := ctx.department_id, class_name := ctx.class_name,
    sec := ctx.sec, month_yyyy_mm := ctx.month_yyyy_mm,
    lectures_held := r.lecturesHeld, attended := r.attended, status := status_to_set,
    remarks := r.remarks, updated_by_faculty_id := ctx.facultyId,
    updated_at := ctx.nowIso }

/-- Composite-key equality of the `attendance` table (spec section 6):
all fields except the measurement and status fields. -/
def sameKey (a b : AttRow) : Bool :=
  decide (a.student_id = b.student_id ∧ a.course_code = b.course_code ∧
    a.department_id = b.department_id ∧ a.class_name = b.class_name ∧
    a.sec = b.sec ∧ a.month_yyyy_mm = b.month_yyyy_mm)

/-- One upsert against the composite key (source line 318): a row with a
matching key is fully replaced, otherwise the record is appended. -/
def upsertOne (store : List AttRow) (rec : AttRow) : List AttRow :=
  if store.any (fun a => sameKey a rec) then
    store.map (fun a => if sameKey a rec then rec else a)
  else
    store ++ [rec]

/-- Batch-save handler of source lines 309-323: collect the validation
errors; when any exist the store is left untouched, otherwise every
grid row is turned into an upsert record and persisted. -/
def batchSave (ctx : SaveCtx) (store : List AttRow) (edited : List GridRow)
    (status_to_set : String) : List ValidationError × List AttRow :=
  if (collectErrors edited).isEmpty then
    ([], (edited.map (buildUpsert ctx status_to_set)).foldl upsertOne store)
  else
    (collectErrors edited, store)

/-- Faculty save path of source lines 294-323: the editor, the save
buttons and the batch-save handler only exist under the
`if not is_locked` branch, so a locked grid yields no persistence call
at all (`none`). -/
def facultySaveStep (ctx : SaveCtx) (roster : List Student) (lectures_held : Int)
    (store : List AttRow) (edited : List GridRow) (status_to_set : String) :
    Option (List ValidationError × List AttRow) :=
  if is_locked (mergeGrid roster lectures_held
      (get_attendance_records ctx.toGroupKey store)) then none
  else some (batchSave ctx store edited status_to_set)

/-- Lifecycle states of one attendance group (spec section 4.2). -/
inductive GState where
  | NOT_STARTED
  | DRAFT
  | LOCKED
deriving DecidableEq

/-- State of a group read off the persisted rows: no rows means
NOT_STARTED, a group with at least one LOCKED row counts as LOCKED
(the reading of source lines 294 and 549), otherwise DRAFT. -/
def groupState (k : GroupKey) (store : List AttRow) : GState :=
  if (get_attendance_records k store).isEmpty then GState.NOT_STARTED
  else if (get_attendance_records k store).any (fun a => a.status == STATUS_LOCKED) then
    GState.LOCKED
  else GState.DRAFT

/-- Lock-status check of the unlock tab, source line 549: records exist
and LOCKED appears among their statuses. -/
def unlockCheckLocked (recs : List AttRow) : Bool :=
  !recs.isEmpty && recs.any (fun a => a.status == STATUS_LOCKED)

/-- Administrator unlock of source line 562: set status DRAFT on every
row matching the group key, touching nothing else. -/
def adminUnlock (k : GroupKey) (store : List AttRow) : List AttRow :=
  store.map (fun a => if matchesGroup k a then { a with status := STATUS_DRAFT } else a)

/-- Key of the enrollment override partition, the match criteria of
`update_course_enrollment` (source line 100). -/
structure EnrollKey where
  course_code : String
  department_id : Int
  class_name : String
  sec : String
deriving DecidableEq

/-- One row of the `student_course_enrollment` table (spec section 6). -/
structure EnrollmentRow where
  course_code : String
  department_id : Int
  class_name : String
  sec : String
  student_id : String
deriving DecidableEq

/-- Row filter of the enrollment delete, source line 101. -/
def enrollMatches (k : EnrollKey) (r : EnrollmentRow) : Bool :=
  decide (r.course_code = k.course_code ∧ r.department_id = k.department_id ∧
    r.class_name = k.class_name ∧ r.sec = k.sec)

/-- Record construction of the enrollment insert, source line 103. -/
def mkEnrollmentRow (k : EnrollKey) (sid : String) : EnrollmentRow :=
  { course_code := k.course_code, department_id := k.department_id,
    class_name := k.class_name, sec := k.sec, student_id := sid }

/-- Enrollment table plus the validity of the memoized
`get_enrolled_students` view (cleared at source line 105). -/
structure EnrollState where
  rows : List EnrollmentRow
  cacheValid : Bool
deriving DecidableEq

/-- `update_course_enrollment`, source lines 99-105: delete every row of
the exact key, insert the new set when non-empty, clear the cached
enrollment view. -/
def update_course_enrollment (k : EnrollKey) (student_ids : List String)
    (st : EnrollState) : EnrollState :=
  let afterDelete := st.rows.filter (fun r => !(enrollMatches k r))
  let newRows := if student_ids.isEmpty then afterDelete
                 else afterDelete ++ student_ids.map (mkEnrollmentRow k)
  { rows := newRows, cacheValid := false }

/-- One row of the detailed monthly summary consumed by the admin
report (source lines 513-529). -/
structure SummaryRow where
  student_id : String
  prn : String
  name : String
  course_name : String
  lectures_held : Int
  attended : Int
deriving DecidableEq

/-- Grouping key of the defaulter aggregation, source line 529. -/
def summaryKey (r : SummaryRow) : String × String × String :=
  (r.student_id, r.prn, r.name)

/-- Sum of lectures held over all courses of one student, the
`total_held` aggregate of source line 529. -/
def total_held (rows : List SummaryRow) (key : String × String × String) : Int :=
  ((rows.filter (fun r => decide (summaryKey r = key))).map (fun r => r.lectures_held)).sum

/-- Sum of attended lectures over all courses of one student, the
`total_attended` aggregate of source line 529. -/
def total_attended (rows : List SummaryRow) (key : String × String × String) : Int :=
  ((rows.filter (fun r => decide (summaryKey r = key))).map (fun r => r.attended)).sum

/-- Overall percentage of source line 530: zero when no lecture was
held. -/
def overallPercent (rows : List SummaryRow) (key : String × String × String) : ℚ :=
  if total_held rows key > 0 then
    (total_attended rows key : ℚ) / (total_held rows key : ℚ) * 100
  else 0

/-- Defaulter filter of source line 531: the students whose overall
percentage is strictly below the threshold. -/
def defaulterKeys (rows : List SummaryRow) (threshold : ℚ) :
    List (String × String × String) :=
  ((rows.map summaryKey).dedup).filter
    (fun key => decide (overallPercent rows key < threshold))

/-- Default value of the defaulter threshold input, source line 509. -/
def defaultDefaulterThreshold : ℚ := 75

/-! ## Projection lemmas -/

@[simp]
theorem setPercentage_studentId (r : GridRow) : (setPercentage r).studentId = r.studentId := rfl

@[simp]
theorem setPercentage_status (r : GridRow) : (setPercentage r).status = r.status := rfl

@[simp]
theorem setPercentage_attended (r : GridRow) : (setPercentage r).attended = r.attended := rfl

@[simp]
theorem setPercentage_lecturesHeld (r : GridRow) :
    (setPercentage r).lecturesHeld = r.lecturesHeld := rfl

@[simp]
theorem defaultRow_studentId (lh : Int) (s : Student) :
    (defaultRow lh s).studentId = s.student_id := rfl

@[simp]
theorem overlayRow_studentId (p : List AttRow) (r : GridRow) :
    (overlayRow p r).studentId = r.studentId := by
  unfold overlayRow
  cases p.find? (fun a => a.student_id == r.studentId) <;> rfl

theorem sameKey_iff (a b : AttRow) :
    sameKey a b = true ↔ (a.student_id = b.student_id ∧ a.course_code = b.course_code ∧
      a.department_id = b.department_id ∧ a.class_name = b.class_name ∧
      a.sec = b.sec ∧ a.month_yyyy_mm = b.month_yyyy_mm) := by
  simp [sameKey]

theorem matchesGroup_iff (k : GroupKey) (a : AttRow) :
    matchesGroup k a = true ↔ (a.course_code = k.course_code ∧
      a.month_yyyy_mm = k.month_yyyy_mm ∧ a.department_id = k.department_id ∧
      a.class_name = k.class_name ∧ a.sec = k.sec) := by
  simp [matchesGroup]

@[simp]
theorem matchesGroup_setStatus (k : GroupKey) (a : AttRow) (v : String) :
    matchesGroup k { a with status := v } = matchesGroup k a := rfl

@[simp]
theorem matchesGroup_buildUpsert (ctx : SaveCtx) (status : String) (r : GridRow) :
    matchesGroup ctx.toGroupKey (buildUpsert ctx status r) = true := by
  simp [matchesGroup, buildUpsert]

@[simp]
theorem buildUpsert_status (ctx : SaveCtx) (status : String) (r : GridRow) :
    (buildUpsert ctx status r).status = status := rfl

@[simp]
theorem buildUpsert_student_id (ctx : SaveCtx) (status : String) (r : GridRow) :
    (buildUpsert ctx status r).student_id = r.studentId := rfl

/-! ## Theorems for claim C5 -/

/-- C5: `resolveEffectiveRoster` returns the full roster when the
enrollment override is empty; with a non-empty override it returns
exactly the roster students whose identifier is in the override, so
override identifiers absent from the roster are silently ignored and an
empty result is possible (the function is total, no error path). -/
theorem resolveEffectiveRoster_spec (roster : List Student) (enrolled_ids : List String) :
    (enrolled_ids = [] → resolveEffectiveRoster roster enrolled_ids = roster) ∧
    (enrolled_ids ≠ [] → ∀ s : Student,
      s ∈ resolveEffectiveRoster roster enrolled_ids ↔
        s ∈ roster ∧ s.student_id ∈ enrolled_ids) := by
  constructor
  · intro h
    simp [resolveEffectiveRoster, h]
  · intro h s
    have hne : enrolled_ids.isEmpty = false := by
      cases henr : enrolled_ids.isEmpty
      · rfl
      · exact absurd (List.isEmpty_iff.mp henr) h
    simp [resolveEffectiveRoster, hne, List.mem_filter, List.elem_iff]

/-- Witness for C5: with roster [Alice, Bob] and override ["S2"] the
effective roster contains Bob; with the empty override it is the full
roster. -/
theorem resolveEffectiveRoster_spec_witness :
    resolveEffectiveRoster
        [{ student_id := "S1", prn := "P1", name := "Alice" },
         { student_id := "S2", prn := "P2", name := "Bob" }] [] =
      [{ student_id := "S1", prn := "P1", name := "Alice" },
       { student_id := "S2", prn := "P2", name := "Bob" }] ∧
    ({ student_id := "S2", prn := "P2", name := "Bob" } : Student) ∈
      resolveEffectiveRoster
        [{ student_id := "S1", prn := "P1", name := "Alice" },
         { student_id := "S2", prn := "P2", name := "Bob" }] ["S2"] := by
  constructor
  · exact (resolveEffectiveRoster_spec _ []).1 rfl
  · exact ((resolveEffectiveRoster_spec _ ["S2"]).2 (by decide) _).mpr
      ⟨by simp, by simp⟩

/-! ## Theorems for claim C6 -/

/-- C6: `update_course_enrollment` is a pure delete-then-insert for the
exact (course, department, class, section) key: afterwards the rows of
that key are exactly the new student set (empty when the set is empty,
with no merge with prior state), the rows of every other key are exactly
the prior ones, and the cached enrollment view is invalidated. -/
theorem update_course_enrollment_spec (k : EnrollKey) (student_ids : List String)
    (st : EnrollState) :
    ((update_course_enrollment k student_ids st).rows.filter (fun r => enrollMatches k r) =
      if student_ids.isEmpty then [] else student_ids.map (mkEnrollmentRow k)) ∧
    ((update_course_enrollment k student_ids st).rows.filter (fun r => !(enrollMatches k r)) =
      st.rows.filter (fun r => !(enrollMatches k r))) ∧
    (update_course_enrollment k student_ids st).cacheValid = false := by
  have hdel : (st.rows.filter (fun r => !(enrollMatches k r))).filter
      (fun r => enrollMatches k r) = [] := by
    rw [List.filter_filter]
    apply List.filter_eq_nil_iff.mpr
    intro a _
    cases enrollMatches k a <;> simp
  have hdel2 : (st.rows.filter (fun r => !(enrollMatches k r))).filter
      (fun r => !(enrollMatches k r)) = st.rows.filter (fun r => !(enrollMatches k r)) := by
    rw [List.filter_filter]
    apply List.filter_congr
    intro a _
    cases enrollMatches k a <;> simp
  have hnew : ∀ r ∈ student_ids.map (mkEnrollmentRow k), enrollMatches k r = true := by
    intro r hr
    obtain ⟨sid, _, rfl⟩ := List.mem_map.mp hr
    simp [enrollMatches, mkEnrollmentRow]
  refine ⟨?_, ?_, rfl⟩
  · unfold update_course_enrollment
    cases h : student_ids.isEmpty
    · simp only [h, Bool.false_eq_true, if_false, List.filter_append, hdel,
        List.nil_append]
      exact List.filter_eq_self.mpr hnew
    · simp only [h, if_true]
      exact hdel
  · unfold update_course_enrollment
    cases h : student_ids.isEmpty
    · simp only [h, Bool.false_eq_true, if_false, List.filter_append, hdel2]
      have : (student_ids.map (mkEnrollmentRow k)).filter
          (fun r => !(enrollMatches k r)) = [] := by
        apply List.filter_eq_nil_iff.mpr
        intro a ha
        simp [hnew a ha]
      simp [this]
    · simp only [h, if_true]
      exact hdel2

/-! ## Theorems for claim C7 -/

/-- C7: the confirmed administrator unlock sets status DRAFT on every
attendance row matching the (course, department, class, section, month)
key — unconditionally, with no validation in the update — while every
other field of a matching row and every row outside the key are left
exactly unchanged (positionally, so nothing is added or removed). -/
theorem adminUnlock_spec (k : GroupKey) (store : List AttRow) :
    (adminUnlock k store).length = store.length ∧
    ∀ i : Nat, ∀ a b : AttRow, store[i]? = some a → (adminUnlock k store)[i]? = some b →
      (matchesGroup k a = true →
        b.status = STATUS_DRAFT ∧ b.student_id = a.student_id ∧
        b.course_code = a.course_code ∧ b.department_id = a.department_id ∧
        b.class_name = a.class_name ∧ b.sec = a.sec ∧
        b.month_yyyy_mm = a.month_yyyy_mm ∧ b.lectures_held = a.lectures_held ∧
        b.attended = a.attended ∧ b.remarks = a.remarks ∧
        b.updated_by_faculty_id = a.updated_by_faculty_id ∧
        b.updated_at = a.updated_at) ∧
      (matchesGroup k a = false → b = a) := by
  constructor
  · simp [adminUnlock]
  · intro i a b ha hb
    rw [adminUnlock, List.getElem?_map, ha] at hb
    have hb2 : (if matchesGroup k a then { a with status := STATUS_DRAFT } else a) = b :=
      Option.some.inj hb
    constructor
    · intro hm
      rw [if_pos hm] at hb2
      subst hb2
      exact ⟨rfl, rfl, rfl, rfl, rfl, rfl, rfl, rfl, rfl, rfl, rfl, rfl⟩
    · intro hm
      rw [hm] at hb2
      simpa using hb2.symm

/-! ## Concrete sample data used by witnesses and counterexamples -/

/-- Sample group key: course CS101, department 1, First Year / A,
month 202509. -/
def kEx : GroupKey :=
  { course_code := "CS101", department_id := 1, class_name := "First Year",
    sec := "A", month_yyyy_mm := "202509" }

/-- Sample save context for `kEx`. -/
def ctxEx : SaveCtx := { toGroupKey := kEx, facultyId := "F001", nowIso := "2025-09-30" }

/-- Sample roster student S1. -/
def sAlice : Student := { student_id := "S1", prn := "P1", name := "Alice" }

/-- Sample roster student S2. -/
def sBob : Student := { student_id := "S2", prn := "P2", name := "Bob" }

/-- Persisted LOCKED row for student S1 in group `kEx`. -/
def recS1Locked : AttRow :=
  { student_id := "S1", course_code := "CS101", department_id := 1,
    class_name := "First Year", sec := "A", month_yyyy_mm := "202509",
    lectures_held := 20, attended := 10, status := "LOCKED", remarks := "r",
    updated_by_faculty_id := "F001", updated_at := "t0" }

/-- Persisted DRAFT row for student S1 in group `kEx`. -/
def recS1Draft : AttRow :=
  { student_id := "S1", course_code := "CS101", department_id := 1,
    class_name := "First Year", sec := "A", month_yyyy_mm := "202509",
    lectures_held := 18, attended := 12, status := "DRAFT", remarks := "ok",
    updated_by_faculty_id := "F001", updated_at := "t1" }

/-- Persisted LOCKED row for student S2 in group `kEx`. -/
def recS2Locked : AttRow :=
  { student_id := "S2", course_code := "CS101", department_id := 1,
    class_name := "First Year", sec := "A", month_yyyy_mm := "202509",
    lectures_held := 20, attended := 15, status := "LOCKED", remarks := "",
    updated_by_faculty_id := "F001", updated_at := "t0" }

/-- Persisted DRAFT row for student S2 in group `kEx`. -/
def recS2Draft : AttRow :=
  { student_id := "S2", course_code := "CS101", department_id := 1,
    class_name := "First Year", sec := "A", month_yyyy_mm := "202509",
    lectures_held := 20, attended := 16, status := "DRAFT", remarks := "",
    updated_by_faculty_id := "F001", updated_at := "t0" }

/-- Persisted row of another month (outside group `kEx`). -/
def recS1Aug : AttRow :=
  { student_id := "S1", course_code := "CS101", department_id := 1,
    class_name := "First Year", sec := "A", month_yyyy_mm := "202508",
    lectures_held := 9, attended := 9, status := "LOCKED", remarks := "r8",
    updated_by_faculty_id := "F001", updated_at := "t8" }

/-- Valid edited grid row for S1 (attended 5 of 20). -/
def gridS1 : GridRow :=
  { studentId := "S1", prn := "P1", name := "Alice", lecturesHeld := 20,
    attended := 5, status := "DRAFT", remarks := "", percentage := 25 }

/-- Invalid edited grid row: Carol attended 21 of 20. -/
def gridBad : GridRow :=
  { studentId := "S3", prn := "P3", name := "Carol", lecturesHeld := 20,
    attended := 21, status := "DRAFT", remarks := "", percentage := 0 }

/-- Grid row produced for Alice by merging `recS1Draft` (12 of 18,
remarks "ok", percentage 200/3). -/
def rowS1Merged : GridRow :=
  { studentId := "S1", prn := "P1", name := "Alice", lecturesHeld := 18,
    attended := 12, status := "DRAFT", remarks := "ok", percentage := 200 / 3 }

/-- Grid row produced for Bob when no persisted row exists (session
default 20 lectures, attended 0). -/
def rowS2Default : GridRow :=
  { studentId := "S2", prn := "P2", name := "Bob", lecturesHeld := 20,
    attended := 0, status := "DRAFT", remarks := "", percentage := 0 }

/-- Summary row of a student with zero lectures held. -/
def rowBobZero : SummaryRow :=
  { student_id := "S2", prn := "P2", name := "Bob", course_name := "CS101",
    lectures_held := 0, attended := 0 }

/-- Witness for C7: in a two-row store the row matching `kEx` gets
status DRAFT while keeping its attended count, and the row of another
month is returned unchanged. -/
theorem adminUnlock_spec_witness :
    ({ recS1Locked with status := STATUS_DRAFT } : AttRow).status = STATUS_DRAFT ∧
    ({ recS1Locked with status := STATUS_DRAFT } : AttRow).attended = recS1Locked.attended ∧
    (adminUnlock kEx [recS1Locked, recS1Aug])[1]? = some recS1Aug := by
  have h := (adminUnlock_spec kEx [recS1Locked, recS1Aug]).2 0 recS1Locked
    { recS1Locked with status := STATUS_DRAFT } rfl (by decide)
  have hm := h.1 (by decide)
  exact ⟨hm.1, hm.2.2.2.2.2.2.2.2.1, by decide⟩

/-! ## Further projection lemmas for the grid merge -/

@[simp]
theorem setPercentage_prn (r : GridRow) : (setPercentage r).prn = r.prn := rfl

@[simp]
theorem setPercentage_name (r : GridRow) : (setPercentage r).name = r.name := rfl

@[simp]
theorem setPercentage_remarks (r : GridRow) : (setPercentage r).remarks = r.remarks := rfl

@[simp]
theorem overlayRow_prn (p : List AttRow) (r : GridRow) : (overlayRow p r).prn = r.prn := by
  unfold overlayRow
  cases p.find? (fun a => a.student_id == r.studentId) <;> rfl

@[simp]
theorem overlayRow_name (p : List AttRow) (r : GridRow) : (overlayRow p r).name = r.name := by
  unfold overlayRow
  cases p.find? (fun a => a.student_id == r.studentId) <;> rfl

@[simp]
theorem defaultRow_prn (lh : Int) (s : Student) : (defaultRow lh s).prn = s.prn := rfl

@[simp]
theorem defaultRow_name (lh : Int) (s : Student) : (defaultRow lh s).name = s.name := rfl

/-- Overlay of a grid row whose student has no persisted row. -/
theorem overlayRow_eq_of_find?_none (p : List AttRow) (r : GridRow)
    (h : p.find? (fun a => a.student_id == r.studentId) = none) :
    overlayRow p r = r := by
  unfold overlayRow
  rw [h]

/-- Overlay of a grid row whose student has a persisted row. -/
theorem overlayRow_eq_of_find?_some (p : List AttRow) (r : GridRow) (a : AttRow)
    (h : p.find? (fun a => a.student_id == r.studentId) = some a) :
    overlayRow p r = { r with attended := a.attended, lecturesHeld := a.lectures_held,
                              status := a.status, remarks := a.remarks } := by
  unfold overlayRow
  rw [h]

/-! ## Theorems for claim C3 -/

/-- C3: the grid merge produces exactly one row per roster student, in
roster order; each row starts from the session default
(lectures held = session value, attended = 0, status DRAFT, empty
remarks) and is overlaid with the persisted values exactly when a
persisted row with the same student identifier exists; a persisted row
whose student is not in the roster never creates a grid row (every grid
row belongs to a roster student). -/
theorem mergeGrid_spec (roster : List Student) (lh : Int) (persisted : List AttRow) :
    (mergeGrid roster lh persisted).length = roster.length ∧
    (∀ r ∈ mergeGrid roster lh persisted, ∃ s ∈ roster, r.studentId = s.student_id) ∧
    (∀ sid : String,
      (persisted.find? (fun a => a.student_id == sid) = none ↔
        ∀ a ∈ persisted, a.student_id ≠ sid)) ∧
    (∀ i : Nat, ∀ s : Student, ∀ r : GridRow,
      roster[i]? = some s → (mergeGrid roster lh persisted)[i]? = some r →
      r.studentId = s.student_id ∧ r.prn = s.prn ∧ r.name = s.name ∧
      (persisted.find? (fun a => a.student_id == s.student_id) = none →
        r.lecturesHeld = lh ∧ r.attended = 0 ∧ r.status = STATUS_DRAFT ∧ r.remarks = "") ∧
      (∀ a : AttRow, persisted.find? (fun a => a.student_id == s.student_id) = some a →
        r.lecturesHeld = a.lectures_held ∧ r.attended = a.attended ∧
        r.status = a.status ∧ r.remarks = a.remarks)) := by
  refine ⟨by simp [mergeGrid], ?_, ?_, ?_⟩
  · intro r hr
    simp only [mergeGrid, List.mem_map] at hr
    obtain ⟨r1, ⟨r0, ⟨s, hs, rfl⟩, rfl⟩, rfl⟩ := hr
    exact ⟨s, hs, by simp⟩
  · intro sid
    rw [List.find?_eq_none]
    constructor
    · intro h a ha
      simpa using h a ha
    · intro h a ha
      simpa using h a ha
  · intro i s r ha hb
    rw [mergeGrid, List.getElem?_map, List.getElem?_map, List.getElem?_map, ha] at hb
    have hr : setPercentage (overlayRow persisted (defaultRow lh s)) = r :=
      Option.some.inj hb
    subst hr
    refine ⟨by simp, by simp, by simp, ?_, ?_⟩
    · intro hnone
      rw [overlayRow_eq_of_find?_none persisted _ (by simpa using hnone)]
      exact ⟨rfl, rfl, rfl, rfl⟩
    · intro a hsome
      rw [overlayRow_eq_of_find?_some persisted _ a (by simpa using hsome)]
      exact ⟨rfl, rfl, rfl, rfl⟩

/-- Witness for C3: merging roster [Alice, Bob] with the single
persisted row `recS1Draft` overlays Alice's row with the persisted
values and leaves Bob's row at the session default. -/
theorem mergeGrid_sample_eq :
    mergeGrid [sAlice, sBob] 20 [recS1Draft] = [rowS1Merged, rowS2Default] := by
  unfold mergeGrid
  simp only [List.map_cons, List.map_nil]
  rw [overlayRow_eq_of_find?_some [recS1Draft] (defaultRow 20 sAlice) recS1Draft (by decide)]
  rw [overlayRow_eq_of_find?_none [recS1Draft] (defaultRow 20 sBob) (by decide)]
  simp only [setPercentage, defaultRow, sAlice, sBob, recS1Draft, rowS1Merged,
    rowS2Default, STATUS_DRAFT]
  norm_num

theorem mergeGrid_spec_witness :
    rowS1Merged.lecturesHeld = recS1Draft.lectures_held ∧
    rowS1Merged.attended = recS1Draft.attended ∧
    rowS2Default.lecturesHeld = 20 ∧ rowS2Default.attended = 0 ∧
    rowS2Default.status = STATUS_DRAFT := by
  have h := mergeGrid_spec [sAlice, sBob] 20 [recS1Draft]
  have h0 := h.2.2.2 0 sAlice rowS1Merged rfl (by rw [mergeGrid_sample_eq]; rfl)
  have h1 := h.2.2.2 1 sBob rowS2Default rfl (by rw [mergeGrid_sample_eq]; rfl)
  have hsome := h0.2.2.2.2 recS1Draft (by decide)
  have hnone := h1.2.2.2.1 (by decide)
  exact ⟨hsome.1, hsome.2.1, hnone.1, hnone.2.1, hnone.2.2.1⟩

/-! ## Theorems for claim C4 -/

/-- Applying the overlay-then-percentage pass a second time with the
same persisted rows reproduces the row unchanged. -/
theorem overlay_pct_idem (p : List AttRow) (r : GridRow) :
    setPercentage (overlayRow p (setPercentage (overlayRow p r))) =
      setPercentage (overlayRow p r) := by
  cases hfind : p.find? (fun a => a.student_id == r.studentId) with
  | none =>
    have h1 : overlayRow p r = r := overlayRow_eq_of_find?_none p r hfind
    have h2 : overlayRow p (setPercentage r) = setPercentage r := by
      apply overlayRow_eq_of_find?_none
      simpa using hfind
    rw [h1, h2]
    rfl
  | some a =>
    have h1 := overlayRow_eq_of_find?_some p (setPercentage (overlayRow p r)) a
      (by simpa using hfind)
    have h2 := overlayRow_eq_of_find?_some p r a hfind
    rw [h1, h2]
    rfl

/-- C4: the grid merge is idempotent — re-running the overlay and the
percentage recomputation of the merge algorithm against the same
persisted rows maps the merged grid to itself, so there is no
double-counting or drift (and, the merge being a pure function of
roster, session value and persisted rows, two runs on identical inputs
are identical). -/
theorem mergeGrid_idem (roster : List Student) (lh : Int) (persisted : List AttRow) :
    (mergeGrid roster lh persisted).map
        (fun r => setPercentage (overlayRow persisted r)) =
      mergeGrid roster lh persisted := by
  unfold mergeGrid
  simp only [List.map_map]
  apply List.map_congr_left
  intro s _
  simp only [Function.comp_apply]
  exact overlay_pct_idem persisted (defaultRow lh s)

/-! ## Theorems for claim C8 -/

/-- C8: every merged grid row carries
percentage = attended / lectures_held * 100 when lectures_held is
positive and 0 otherwise, and the percentage is purely derived: the
persisted upsert record built from a grid row does not depend on the
percentage field at all (the record has no such field and changing the
grid percentage leaves the record identical). -/
theorem percentage_derived_spec (roster : List Student) (lh : Int)
    (persisted : List AttRow) :
    (∀ r ∈ mergeGrid roster lh persisted,
      r.percentage =
        if r.lecturesHeld > 0 then (r.attended : ℚ) / (r.lecturesHeld : ℚ) * 100 else 0) ∧
    (∀ (ctx : SaveCtx) (status : String) (r : GridRow) (q : ℚ),
      buildUpsert ctx status { r with percentage := q } = buildUpsert ctx status r) := by
  constructor
  · intro r hr
    simp only [mergeGrid, List.mem_map] at hr
    obtain ⟨r1, ⟨r0, ⟨s, hs, rfl⟩, rfl⟩, rfl⟩ := hr
    rfl
  · intro ctx status r q
    rfl

/-- Witness for C8: the default-merged row for Alice carries the derived
percentage, and editing the percentage of a grid row does not change the
upsert record built from it. -/
theorem percentage_derived_spec_witness :
    rowS2Default.percentage =
      (if rowS2Default.lecturesHeld > 0 then
        (rowS2Default.attended : ℚ) / (rowS2Default.lecturesHeld : ℚ) * 100 else 0) ∧
    buildUpsert ctxEx STATUS_DRAFT { gridS1 with percentage := 99 } =
      buildUpsert ctxEx STATUS_DRAFT gridS1 := by
  have h := percentage_derived_spec [sBob] 20 []
  have hgrid : mergeGrid [sBob] 20 [] = [rowS2Default] := by
    unfold mergeGrid
    simp only [List.map_cons, List.map_nil]
    rw [overlayRow_eq_of_find?_none [] (defaultRow 20 sBob) rfl]
    simp only [setPercentage, defaultRow, sBob, rowS2Default, STATUS_DRAFT]
    norm_num
  exact ⟨h.1 rowS2Default (by rw [hgrid]; exact List.mem_singleton.mpr rfl),
    h.2 ctxEx STATUS_DRAFT gridS1 99⟩

/-! ## Theorems for claim C9 -/

/-- C9: a student key appears in the defaulter list iff the student has
at least one summary row and the overall percentage — attended and
lectures held summed across all the student's courses of the month — is
strictly below the threshold; a student with zero total lectures held
has percentage 0 and is therefore a defaulter for every positive
threshold; the default threshold is 75. -/
theorem defaulter_spec (rows : List SummaryRow) (T : ℚ)
    (key : String × String × String) :
    (key ∈ defaulterKeys rows T ↔
      ((∃ r ∈ rows, summaryKey r = key) ∧ overallPercent rows key < T)) ∧
    (total_held rows key = 0 → overallPercent rows key = 0) ∧
    ((∃ r ∈ rows, summaryKey r = key) → total_held rows key = 0 → 0 < T →
      key ∈ defaulterKeys rows T) ∧
    defaultDefaulterThreshold = 75 := by
  have hiff : key ∈ defaulterKeys rows T ↔
      ((∃ r ∈ rows, summaryKey r = key) ∧ overallPercent rows key < T) := by
    unfold defaulterKeys
    rw [List.mem_filter, List.mem_dedup, List.mem_map]
    simp
  have hzero : total_held rows key = 0 → overallPercent rows key = 0 := by
    intro h
    unfold overallPercent
    rw [h]
    norm_num
  refine ⟨hiff, hzero, ?_, rfl⟩
  intro hmem h0 hT
  exact hiff.mpr ⟨hmem, by rw [hzero h0]; exact hT⟩

/-- Witness for C9: Bob with zero lectures held across his courses is a
defaulter at the default threshold of 75. -/
theorem defaulter_spec_witness :
    ("S2", "P2", "Bob") ∈ defaulterKeys [rowBobZero] defaultDefaulterThreshold := by
  have h := defaulter_spec [rowBobZero] defaultDefaulterThreshold ("S2", "P2", "Bob")
  exact h.2.2.1 ⟨rowBobZero, by simp, rfl⟩ (by decide) (by norm_num [defaultDefaulterThreshold])

/-! ## Lemmas about the composite-key upsert -/

theorem mem_upsertOne_self (st : List AttRow) (rec : AttRow) : rec ∈ upsertOne st rec := by
  unfold upsertOne
  split
  next h =>
    obtain ⟨a, ha, hk⟩ := List.any_eq_true.mp h
    exact List.mem_map.mpr ⟨a, ha, by simp [hk]⟩
  next => simp

theorem mem_upsertOne_of_sameKey_false {x : AttRow} (st : List AttRow) (rec : AttRow)
    (hx : x ∈ st) (h : sameKey x rec = false) : x ∈ upsertOne st rec := by
  unfold upsertOne
  split
  · exact List.mem_map.mpr ⟨x, hx, by simp [h]⟩
  · exact List.mem_append_left _ hx

theorem mem_upsertOne_elim {x : AttRow} {st : List AttRow} {rec : AttRow}
    (hx : x ∈ upsertOne st rec) : x ∈ st ∨ x = rec := by
  unfold upsertOne at hx
  split at hx
  · obtain ⟨a, ha, hfa⟩ := List.mem_map.mp hx
    by_cases hk : sameKey a rec = true
    · rw [if_pos hk] at hfa
      exact Or.inr hfa.symm
    · rw [if_neg hk] at hfa
      exact Or.inl (hfa ▸ ha)
  · rcases List.mem_append.mp hx with h | h
    · exact Or.inl h
    · exact Or.inr (by simpa using h)

theorem mem_foldl_upsert_elim : ∀ (recs st : List AttRow) (x : AttRow),
    x ∈ List.foldl upsertOne st recs → x ∈ st ∨ x ∈ recs := by
  intro recs
  induction recs with
  | nil =>
    intro st x hx
    exact Or.inl hx
  | cons r rs ih =>
    intro st x hx
    rw [List.foldl_cons] at hx
    rcases ih (upsertOne st r) x hx with h | h
    · rcases mem_upsertOne_elim h with h1 | h1
      · exact Or.inl h1
      · exact Or.inr (h1 ▸ List.mem_cons_self r rs)
    · exact Or.inr (List.mem_cons_of_mem r h)

theorem mem_foldl_upsert_of_all_false : ∀ (recs st : List AttRow) (x : AttRow),
    x ∈ st → (∀ q ∈ recs, sameKey x q = false) → x ∈ List.foldl upsertOne st recs := by
  intro recs
  induction recs with
  | nil =>
    intro st x hx _
    exact hx
  | cons r rs ih =>
    intro st x hx hall
    rw [List.foldl_cons]
    exact ih (upsertOne st r) x
      (mem_upsertOne_of_sameKey_false st r hx (hall r (List.mem_cons_self r rs)))
      (fun q hq => hall q (List.mem_cons_of_mem r hq))

theorem mem_foldl_upsert_self : ∀ (recs : List AttRow),
    recs.Pairwise (fun a b => sameKey a b = false) →
    ∀ rec ∈ recs, ∀ st : List AttRow, rec ∈ List.foldl upsertOne st recs := by
  intro recs
  induction recs with
  | nil =>
    intro _ rec h
    exact absurd h (List.not_mem_nil rec)
  | cons r rs ih =>
    intro hp rec hrec st
    rw [List.pairwise_cons] at hp
    rw [List.foldl_cons]
    rcases List.mem_cons.mp hrec with rfl | h
    · exact mem_foldl_upsert_of_all_false rs (upsertOne st rec) rec
        (mem_upsertOne_self st rec) hp.1
    · exact ih hp.2 rec h (upsertOne st r)

theorem exists_mem_foldl_upsert (Q : AttRow → Prop) : ∀ (recs : List AttRow),
    recs ≠ [] → (∀ q ∈ recs, Q q) → ∀ st : List AttRow,
    ∃ x ∈ List.foldl upsertOne st recs, Q x := by
  intro recs
  induction recs with
  | nil =>
    intro h
    exact absurd rfl h
  | cons r rs ih =>
    intro _ hQ st
    cases rs with
    | nil =>
      refine ⟨r, ?_, hQ r (List.mem_cons_self r [])⟩
      rw [List.foldl_cons, List.foldl_nil]
      exact mem_upsertOne_self st r
    | cons r2 rs2 =>
      rw [List.foldl_cons]
      exact ih (by simp) (fun q hq => hQ q (List.mem_cons_of_mem r hq)) (upsertOne st r)

/-! ## Theorems for claim C1 -/

/-- C1: whatever the target status (DRAFT or LOCKED), a batch save with
at least one row where attended exceeds lectures held leaves the store
exactly unchanged and reports one validation entry per offending row,
naming the student and both values; a batch with no violation reports no
error and upserts every row of the grid (with pairwise-distinct student
ids, each row's record is in the resulting store). -/
theorem batch_save_spec (ctx : SaveCtx) (store : List AttRow) (edited : List GridRow)
    (status_to_set : String) :
    ((∃ r ∈ edited, r.attended > r.lecturesHeld) →
      (batchSave ctx store edited status_to_set).2 = store ∧
      (batchSave ctx store edited status_to_set).1 =
        (edited.filter (fun r => decide (r.attended > r.lecturesHeld))).map
          (fun r => { name := r.name, attended := r.attended,
                      lecturesHeld := r.lecturesHeld }) ∧
      (batchSave ctx store edited status_to_set).1 ≠ []) ∧
    ((∀ r ∈ edited, r.attended ≤ r.lecturesHeld) →
      (batchSave ctx store edited status_to_set).1 = [] ∧
      (batchSave ctx store edited status_to_set).2 =
        (edited.map (buildUpsert ctx status_to_set)).foldl upsertOne store ∧
      (edited.Pairwise (fun a b => a.studentId ≠ b.studentId) →
        ∀ r ∈ edited, buildUpsert ctx status_to_set r ∈
          (batchSave ctx store edited status_to_set).2)) := by
  constructor
  · rintro ⟨r, hr, hv⟩
    have hmem : ({ name := r.name, attended := r.attended,
                   lecturesHeld := r.lecturesHeld } : ValidationError) ∈
        collectErrors edited := by
      unfold collectErrors
      exact List.mem_map.mpr ⟨r, List.mem_filter.mpr ⟨hr, by simpa using hv⟩, rfl⟩
    have hne : collectErrors edited ≠ [] := List.ne_nil_of_mem hmem
    have hE : (collectErrors edited).isEmpty = false := by
      cases hE2 : (collectErrors edited).isEmpty
      · rfl
      · exact absurd (List.isEmpty_iff.mp hE2) hne
    unfold batchSave
    rw [hE]
    simp only [Bool.false_eq_true, if_false]
    exact ⟨trivial, rfl, hne⟩
  · intro hall
    have hfil : edited.filter (fun r => decide (r.attended > r.lecturesHeld)) = [] := by
      apply List.filter_eq_nil_iff.mpr
      intro a ha
      simpa using not_lt.mpr (hall a ha)
    have hE : (collectErrors edited).isEmpty = true := by
      unfold collectErrors
      rw [hfil]
      rfl
    have hres : batchSave ctx store edited status_to_set =
        ([], (edited.map (buildUpsert ctx status_to_set)).foldl upsertOne store) := by
      unfold batchSave
      rw [hE]
      simp only [if_true]
    refine ⟨by rw [hres], by rw [hres], ?_⟩
    intro hpair r hr
    rw [hres]
    have hpair2 : (edited.map (buildUpsert ctx status_to_set)).Pairwise
        (fun a b => sameKey a b = false) := by
      rw [List.pairwise_map]
      refine List.Pairwise.imp ?_ hpair
      intro a b hne2
      unfold sameKey
      rw [decide_eq_false_iff_not]
      intro hc
      exact hne2 hc.1
    exact mem_foldl_upsert_self _ hpair2 _ (List.mem_map.mpr ⟨r, hr, rfl⟩) store

/-- Witness for C1: saving [gridS1, gridBad] (Carol attended 21 of 20)
leaves the one-row store unchanged and produces a non-empty report,
while saving the valid [gridS1] persists its record. -/
theorem batch_save_spec_witness :
    (batchSave ctxEx [recS1Draft] [gridS1, gridBad] STATUS_LOCKED).2 = [recS1Draft] ∧
    (batchSave ctxEx [recS1Draft] [gridS1, gridBad] STATUS_LOCKED).1 ≠ [] ∧
    buildUpsert ctxEx STATUS_DRAFT gridS1 ∈
      (batchSave ctxEx [recS1Draft] [gridS1] STATUS_DRAFT).2 := by
  have h1 := (batch_save_spec ctxEx [recS1Draft] [gridS1, gridBad] STATUS_LOCKED).1
    ⟨gridBad, by simp, by decide⟩
  have h2 := (batch_save_spec ctxEx [recS1Draft] [gridS1] STATUS_DRAFT).2 (by decide)
  exact ⟨h1.1, h1.2.2, h2.2.2 (by simp) gridS1 (by simp)⟩

/-! ## Lemmas about the lock gate and the group state -/

theorem pairwise_sid_eq {l : List AttRow}
    (hp : l.Pairwise (fun a b => a.student_id ≠ b.student_id)) :
    ∀ a ∈ l, ∀ b ∈ l, a.student_id = b.student_id → a = b := by
  induction l with
  | nil =>
    intro a ha
    exact absurd ha (List.not_mem_nil a)
  | cons x xs ih =>
    rw [List.pairwise_cons] at hp
    intro a ha b hb hab
    rcases List.mem_cons.mp ha with rfl | ha2
    · rcases List.mem_cons.mp hb with rfl | hb2
      · rfl
      · exact absurd hab (hp.1 b hb2)
    · rcases List.mem_cons.mp hb with rfl | hb2
      · exact absurd hab.symm (hp.1 a ha2)
      · exact ih hp.2 a ha2 b hb2 hab

/-- The lock gate of the entry tab reads exactly this: the merged grid
shows LOCKED iff some persisted row with a roster student is LOCKED
(assuming the store-guaranteed distinctness of student ids within the
group). -/
theorem is_locked_mergeGrid_iff (roster : List Student) (lh : Int) (p : List AttRow)
    (hdist : p.Pairwise (fun a b => a.student_id ≠ b.student_id)) :
    is_locked (mergeGrid roster lh p) = true ↔
      ∃ a ∈ p, a.status = STATUS_LOCKED ∧ ∃ s ∈ roster, a.student_id = s.student_id := by
  constructor
  · intro h
    rw [is_locked, List.any_eq_true] at h
    obtain ⟨r, hr, hst⟩ := h
    simp only [mergeGrid, List.mem_map] at hr
    obtain ⟨r1, ⟨r0, ⟨s, hs, rfl⟩, rfl⟩, rfl⟩ := hr
    cases hfind : p.find? (fun a => a.student_id == s.student_id) with
    | none =>
      rw [overlayRow_eq_of_find?_none p _ (by simpa using hfind)] at hst
      simp [setPercentage, defaultRow, STATUS_DRAFT, STATUS_LOCKED] at hst
    | some a =>
      rw [overlayRow_eq_of_find?_some p _ a (by simpa using hfind)] at hst
      have ha := List.mem_of_find?_eq_some hfind
      have hpred := List.find?_some hfind
      rw [beq_iff_eq] at hpred
      have hstat : a.status = STATUS_LOCKED := by
        have : (a.status == STATUS_LOCKED) = true := hst
        exact beq_iff_eq.mp this
      exact ⟨a, ha, hstat, s, hs, hpred⟩
  · rintro ⟨a, ha, hstat, s, hs, hsid⟩
    rw [is_locked, List.any_eq_true]
    have hsome : (p.find? (fun x => x.student_id == s.student_id)).isSome := by
      rw [List.find?_isSome]
      exact ⟨a, ha, by simpa using hsid⟩
    obtain ⟨b, hb⟩ := Option.isSome_iff_exists.mp hsome
    have hbmem := List.mem_of_find?_eq_some hb
    have hbpred := List.find?_some hb
    rw [beq_iff_eq] at hbpred
    have hba : b = a := pairwise_sid_eq hdist b hbmem a ha (by rw [hbpred, hsid])
    refine ⟨setPercentage (overlayRow p (defaultRow lh s)), ?_, ?_⟩
    · simp only [mergeGrid, List.mem_map]
      exact ⟨overlayRow p (defaultRow lh s), ⟨defaultRow lh s, ⟨s, hs, rfl⟩, rfl⟩, rfl⟩
    · rw [overlayRow_eq_of_find?_some p _ b (by simpa using hb)]
      subst hba
      have : (b.status == STATUS_LOCKED) = true := by
        rw [beq_iff_eq]
        exact hstat
      exact this

theorem groupState_eq_NOT_STARTED_iff (k : GroupKey) (store : List AttRow) :
    groupState k store = GState.NOT_STARTED ↔ get_attendance_records k store = [] := by
  unfold groupState
  split_ifs with h1 h2
  · simp [List.isEmpty_iff.mp h1]
  · constructor
    · intro h
      exact absurd h (by simp)
    · intro h
      rw [h] at h1
      exact absurd rfl h1
  · constructor
    · intro h
      exact absurd h (by simp)
    · intro h
      rw [h] at h1
      exact absurd rfl h1

theorem groupState_eq_LOCKED_iff (k : GroupKey) (store : List AttRow) :
    groupState k store = GState.LOCKED ↔
      ∃ a ∈ get_attendance_records k store, a.status = STATUS_LOCKED := by
  unfold groupState
  split_ifs with h1 h2
  · rw [List.isEmpty_iff.mp h1]
    simp
  · rw [List.any_eq_true] at h2
    constructor
    · intro _
      obtain ⟨a, ha, hk⟩ := h2
      exact ⟨a, ha, by simpa using hk⟩
    · intro _
      rfl
  · constructor
    · intro h
      exact absurd h (by simp)
    · rintro ⟨a, ha, hstat⟩
      exfalso
      apply h2
      rw [List.any_eq_true]
      exact ⟨a, ha, by simpa using hstat⟩

theorem groupState_eq_DRAFT_iff (k : GroupKey) (store : List AttRow) :
    groupState k store = GState.DRAFT ↔ (get_attendance_records k store ≠ [] ∧
      ∀ a ∈ get_attendance_records k store, a.status ≠ STATUS_LOCKED) := by
  unfold groupState
  split_ifs with h1 h2
  · rw [List.isEmpty_iff.mp h1]
    simp
  · constructor
    · intro h
      exact absurd h (by simp)
    · rintro ⟨-, hall⟩
      exfalso
      rw [List.any_eq_true] at h2
      obtain ⟨a, ha, hk⟩ := h2
      exact hall a ha (by simpa using hk)
  · constructor
    · intro _
      refine ⟨?_, ?_⟩
      · intro hnil
        rw [hnil] at h1
        exact absurd rfl h1
      · intro a ha hstat
        apply h2
        rw [List.any_eq_true]
        exact ⟨a, ha, by simpa using hstat⟩
    · intro _
      rfl

theorem get_attendance_records_adminUnlock (k : GroupKey) (st : List AttRow) :
    get_attendance_records k (adminUnlock k st) =
      (get_attendance_records k st).map (fun a => { a with status := STATUS_DRAFT }) := by
  unfold get_attendance_records adminUnlock
  rw [List.filter_map]
  have h1 : st.filter (matchesGroup k ∘ fun a =>
      if matchesGroup k a then { a with status := STATUS_DRAFT } else a) =
      st.filter (matchesGroup k) := by
    apply List.filter_congr
    intro a _
    simp only [Function.comp_apply]
    by_cases h : matchesGroup k a = true
    · rw [if_pos h, matchesGroup_setStatus]
    · rw [if_neg h]
  rw [h1]
  apply List.map_congr_left
  intro a ha
  rw [if_pos (List.mem_filter.mp ha).2]

theorem groupState_adminUnlock (k : GroupKey) (st : List AttRow)
    (h : get_attendance_records k st ≠ []) :
    groupState k (adminUnlock k st) = GState.DRAFT := by
  rw [groupState_eq_DRAFT_iff, get_attendance_records_adminUnlock]
  constructor
  · intro hnil
    exact h (List.map_eq_nil_iff.mp hnil)
  · intro a ha hstat
    obtain ⟨b, _, rfl⟩ := List.mem_map.mp ha
    simp [STATUS_DRAFT, STATUS_LOCKED] at hstat

/-! ## Theorems for claim C2 -/

/-- Counterexample to C2 as stated: the store holds a single persisted
row, LOCKED, for student S2 of group `kEx`, so the group is LOCKED under
any reading; yet a faculty save-as-draft issued with an effective roster
that does not contain S2 (an enrollment override can produce this) is
not rejected — the gate of source line 294 only sees the merged grid of
roster students — and it persists a new row. -/
theorem lifecycle_gate_cex :
    groupState kEx [recS2Locked] = GState.LOCKED ∧
    facultySaveStep ctxEx [sAlice] 20 [recS2Locked] [gridS1] STATUS_DRAFT =
      some ([], [recS2Locked, buildUpsert ctxEx STATUS_DRAFT gridS1]) ∧
    [recS2Locked, buildUpsert ctxEx STATUS_DRAFT gridS1] ≠ [recS2Locked] := by
  refine ⟨by decide, by decide, by decide⟩

/-- C2 (amended): provided every persisted row of the group belongs to
the effective roster (and the group rows have the store-guaranteed
distinct student ids), the transitions are exactly as claimed: a save
attempted while the group is LOCKED is rejected before any persistence
call (the handler is unreachable, `none`); a rejected validation leaves
the store unchanged; a successful save starts from NOT_STARTED or DRAFT
and ends in LOCKED when the target status is LOCKED, else in DRAFT; and
the administrator unlock takes any group with rows to DRAFT.  Without
the roster-coverage proviso a LOCKED row of an out-of-roster student is
invisible to the gate (see the counterexample). -/
theorem lifecycle_transitions_amended (ctx : SaveCtx) (roster : List Student) (lh : Int)
    (store : List AttRow) (edited : List GridRow) (status_to_set : String)
    (hcover : ∀ a ∈ get_attendance_records ctx.toGroupKey store,
      ∃ s ∈ roster, a.student_id = s.student_id)
    (hdist : (get_attendance_records ctx.toGroupKey store).Pairwise
      (fun a b => a.student_id ≠ b.student_id)) :
    (groupState ctx.toGroupKey store = GState.LOCKED →
      facultySaveStep ctx roster lh store edited status_to_set = none) ∧
    (∀ errs : List ValidationError, ∀ store2 : List AttRow,
      facultySaveStep ctx roster lh store edited status_to_set = some (errs, store2) →
      errs ≠ [] → store2 = store) ∧
    (∀ store2 : List AttRow,
      facultySaveStep ctx roster lh store edited status_to_set = some ([], store2) →
      edited ≠ [] →
      (groupState ctx.toGroupKey store = GState.NOT_STARTED ∨
        groupState ctx.toGroupKey store = GState.DRAFT) ∧
      groupState ctx.toGroupKey store2 =
        (if status_to_set = STATUS_LOCKED then GState.LOCKED else GState.DRAFT)) ∧
    (∀ st : List AttRow, get_attendance_records ctx.toGroupKey st ≠ [] →
      groupState ctx.toGroupKey (adminUnlock ctx.toGroupKey st) = GState.DRAFT) := by
  refine ⟨?_, ?_, ?_, fun st h => groupState_adminUnlock _ st h⟩
  · intro hlock
    rw [groupState_eq_LOCKED_iff] at hlock
    obtain ⟨a, ha, hstat⟩ := hlock
    obtain ⟨s, hs, hsid⟩ := hcover a ha
    have hl : is_locked (mergeGrid roster lh
        (get_attendance_records ctx.toGroupKey store)) = true := by
      rw [is_locked_mergeGrid_iff _ lh _ hdist]
      exact ⟨a, ha, hstat, s, hs, hsid⟩
    unfold facultySaveStep
    rw [hl]
    simp
  · intro errs store2 hstep hne
    unfold facultySaveStep at hstep
    cases hx : is_locked (mergeGrid roster lh
        (get_attendance_records ctx.toGroupKey store)) with
    | true =>
      rw [hx] at hstep
      simp at hstep
    | false =>
      rw [hx] at hstep
      simp only [Bool.false_eq_true, if_false, Option.some.injEq] at hstep
      unfold batchSave at hstep
      cases hE : (collectErrors edited).isEmpty
      · rw [hE] at hstep
        simp only [Bool.false_eq_true, if_false] at hstep
        injection hstep with h1 h2
        exact h2.symm
      · rw [hE] at hstep
        simp only [if_true] at hstep
        injection hstep with h1 h2
        exact absurd h1.symm hne
  · intro store2 hstep hedit
    unfold facultySaveStep at hstep
    cases hx : is_locked (mergeGrid roster lh
        (get_attendance_records ctx.toGroupKey store)) with
    | true =>
      rw [hx] at hstep
      simp at hstep
    | false =>
      rw [hx] at hstep
      simp only [Bool.false_eq_true, if_false, Option.some.injEq] at hstep
      have hnolock : ∀ a ∈ get_attendance_records ctx.toGroupKey store,
          a.status ≠ STATUS_LOCKED := by
        intro a ha hstat
        obtain ⟨s, hs, hsid⟩ := hcover a ha
        have hl : is_locked (mergeGrid roster lh
            (get_attendance_records ctx.toGroupKey store)) = true := by
          rw [is_locked_mergeGrid_iff _ lh _ hdist]
          exact ⟨a, ha, hstat, s, hs, hsid⟩
        rw [hx] at hl
        exact absurd hl (by decide)
      constructor
      · by_cases hrecnil : get_attendance_records ctx.toGroupKey store = []
        · left
          rw [groupState_eq_NOT_STARTED_iff]
          exact hrecnil
        · right
          rw [groupState_eq_DRAFT_iff]
          exact ⟨hrecnil, hnolock⟩
      · unfold batchSave at hstep
        cases hE : (collectErrors edited).isEmpty
        · rw [hE] at hstep
          simp only [Bool.false_eq_true, if_false] at hstep
          injection hstep with h1 h2
          rw [h1] at hE
          simp at hE
        · rw [hE] at hstep
          simp only [if_true] at hstep
          injection hstep with h1 h2
          subst h2
          have hbatchne : edited.map (buildUpsert ctx status_to_set) ≠ [] := by
            intro hnil
            exact hedit (List.map_eq_nil_iff.mp hnil)
          have hQ : ∀ q ∈ edited.map (buildUpsert ctx status_to_set),
              matchesGroup ctx.toGroupKey q = true ∧ q.status = status_to_set := by
            intro q hq
            obtain ⟨r, _, rfl⟩ := List.mem_map.mp hq
            exact ⟨matchesGroup_buildUpsert ctx status_to_set r, rfl⟩
          obtain ⟨x, hxmem, hxQ⟩ := exists_mem_foldl_upsert _ _ hbatchne hQ store
          have hxrec : x ∈ get_attendance_records ctx.toGroupKey
              (List.foldl upsertOne store (edited.map (buildUpsert ctx status_to_set))) := by
            unfold get_attendance_records
            exact List.mem_filter.mpr ⟨hxmem, hxQ.1⟩
          by_cases hSL : status_to_set = STATUS_LOCKED
          · rw [if_pos hSL, groupState_eq_LOCKED_iff]
            exact ⟨x, hxrec, hxQ.2.trans hSL⟩
          · rw [if_neg hSL, groupState_eq_DRAFT_iff]
            refine ⟨List.ne_nil_of_mem hxrec, ?_⟩
            intro y hy hystat
            have hymem := (List.mem_filter.mp hy).1
            have hygrp := (List.mem_filter.mp hy).2
            rcases mem_foldl_upsert_elim _ store y hymem with h | h
            · exact hnolock y (List.mem_filter.mpr ⟨h, hygrp⟩) hystat
            · obtain ⟨r, _, rfl⟩ := List.mem_map.mp h
              exact hSL ((buildUpsert_status ctx status_to_set r).symm.trans hystat)

/-- Witness for the amended C2: starting from a one-row DRAFT store, the
confirmed submit-and-lock of the valid grid [gridS1] takes the group to
LOCKED, and the administrator unlock takes it back to DRAFT. -/
theorem lifecycle_transitions_amended_witness :
    groupState kEx [buildUpsert ctxEx STATUS_LOCKED gridS1] = GState.LOCKED ∧
    groupState kEx (adminUnlock kEx [buildUpsert ctxEx STATUS_LOCKED gridS1]) =
      GState.DRAFT := by
  have h := lifecycle_transitions_amended ctxEx [sAlice] 20 [recS1Draft] [gridS1]
    STATUS_LOCKED (by decide) (by decide)
  have hc := h.2.2.1 [buildUpsert ctxEx STATUS_LOCKED gridS1] (by decide) (by decide)
  refine ⟨?_, h.2.2.2 [buildUpsert ctxEx STATUS_LOCKED gridS1] (by decide)⟩
  have h2 := hc.2
  simpa using h2

/-! ## Theorems for claim C10 -/

/-- Counterexample to C10 as stated: the group `kEx` holds one persisted
row with status LOCKED (for student S2), so by the claim both read paths
should treat the group as LOCKED; the unlock tab's check does, but the
entry tab's `is_locked` — computed on the grid merged over an effective
roster that does not contain S2 — is false. -/
theorem lock_read_paths_cex :
    recS2Locked.status = STATUS_LOCKED ∧
    recS2Locked ∈ get_attendance_records kEx [recS2Locked] ∧
    unlockCheckLocked (get_attendance_records kEx [recS2Locked]) = true ∧
    is_locked (mergeGrid [sAlice] 20 (get_attendance_records kEx [recS2Locked])) =
      false := by
  refine ⟨rfl, by decide, by decide, by decide⟩

/-- C10 (amended): the unlock tab treats the group as LOCKED iff the
group has persisted rows and at least one of them — not necessarily all
— is LOCKED; the entry tab treats it as LOCKED iff at least one
persisted row whose student is in the effective roster is LOCKED; when
every persisted row's student is in the effective roster the two reads
agree exactly.  In particular a group with mixed DRAFT and LOCKED rows
is read-only to faculty and is offered for unlock. -/
theorem lock_read_paths_amended (recs : List AttRow) (roster : List Student) (lh : Int)
    (hdist : recs.Pairwise (fun a b => a.student_id ≠ b.student_id)) :
    (unlockCheckLocked recs = true ↔
      recs ≠ [] ∧ ∃ a ∈ recs, a.status = STATUS_LOCKED) ∧
    (is_locked (mergeGrid roster lh recs) = true ↔
      ∃ a ∈ recs, a.status = STATUS_LOCKED ∧
        ∃ s ∈ roster, a.student_id = s.student_id) ∧
    ((∀ a ∈ recs, ∃ s ∈ roster, a.student_id = s.student_id) →
      is_locked (mergeGrid roster lh recs) = unlockCheckLocked recs) := by
  have h2 := is_locked_mergeGrid_iff roster lh recs hdist
  have h1 : unlockCheckLocked recs = true ↔
      recs ≠ [] ∧ ∃ a ∈ recs, a.status = STATUS_LOCKED := by
    unfold unlockCheckLocked
    rw [Bool.and_eq_true, List.any_eq_true]
    constructor
    · rintro ⟨hne, a, ha, hk⟩
      refine ⟨?_, a, ha, by simpa using hk⟩
      intro hnil
      rw [hnil] at hne
      simp at hne
    · rintro ⟨hne, a, ha, hstat⟩
      refine ⟨?_, a, ha, by simpa using hstat⟩
      cases hq : recs.isEmpty
      · rfl
      · exact absurd (List.isEmpty_iff.mp hq) hne
  refine ⟨h1, h2, ?_⟩
  intro hcover
  rw [Bool.eq_iff_iff, h1, h2]
  constructor
  · rintro ⟨a, ha, hstat, -⟩
    exact ⟨List.ne_nil_of_mem ha, a, ha, hstat⟩
  · rintro ⟨-, a, ha, hstat⟩
    exact ⟨a, ha, hstat, hcover a ha⟩

/-- Witness for the amended C10: a mixed group (S1 LOCKED, S2 DRAFT)
with both students in the roster is read as locked by both paths. -/
theorem lock_read_paths_amended_witness :
    unlockCheckLocked [recS1Locked, recS2Draft] = true ∧
    is_locked (mergeGrid [sAlice, sBob] 20 [recS1Locked, recS2Draft]) = true := by
  have h := lock_read_paths_amended [recS1Locked, recS2Draft] [sAlice, sBob] 20 (by decide)
  constructor
  · exact h.1.mpr ⟨by decide, recS1Locked, by simp, rfl⟩
  · exact h.2.1.mpr ⟨recS1Locked, by simp, rfl, sAlice, by simp, rfl⟩

end SGUAttendance
